import Mathlib

/-!
Verification of the contact-form intake handler of the eexperts-website
repository (the `POST` route in the contact API endpoint).

The handler is embedded shallowly: the in-memory rate-limit `Map` becomes a
function store, JavaScript timestamps become `Nat` milliseconds, form fields
(`formData.get` returns `string | null`) become `Option String`, and the
single `POST` function becomes the pure step function `step` from a store and
a request to a response, notification observables, and the updated store.

JavaScript aliasing matters here: `rateLimitStore.get(ip)` returns the stored
record object itself, so the in-place window reset (`rateLimit.count = 0; ...`)
is visible in the store even when the request is later rejected.  The
embedding reproduces this with `storeAfterReset`.
-/

/-- A rate-limit record: `{ count: number; resetTime: number }`. -/
structure RateLimitRecord where
  count : Nat
  resetTime : Nat
deriving DecidableEq, Repr

/-- The in-memory rate-limit store `Map<string, RateLimitRecord>`. -/
def Store : Type := String → Option RateLimitRecord

/-- The empty store (a fresh serving process). -/
def emptyStore : Store := fun _ => none

/-- An uploaded file: its declared MIME type and its byte size. -/
structure Attachment where
  type : String
  size : Nat
deriving DecidableEq, Repr

/-- The parsed form payload (`ContactFormData`); `formData.get` yields
`string | null`, modelled as `Option String`; `website` is the honeypot. -/
structure FormData where
  service : Option String
  timeline : Option String
  company : Option String
  projectSize : Option String
  message : Option String
  firstName : Option String
  lastName : Option String
  email : Option String
  phone : Option String
  contactMethod : Option String
  attachment : Option Attachment
  website : Option String
deriving DecidableEq, Repr

/-- JavaScript truthiness of a `string | null` value: `null` and the empty
string are falsy. -/
def truthy : Option String → Bool
  | none => false
  | some s => s ≠ ""

/-- A `string | null` value interpolated into a template literal: `null`
prints as the text `null`. -/
def jsStr : Option String → String
  | none => "null"
  | some s => s

/-- The value of `x || ''` for a `string | null` value. -/
def orEmpty : Option String → String
  | none => ""
  | some s => if s = "" then "" else s

/-- ASCII lowering, modelling `String.prototype.toLowerCase` (all strings the
handler compares against are ASCII). -/
def lowerStr (s : String) : String := String.mk (s.toList.map Char.toLower)

/-- Whether `sub` is a prefix of `l`. -/
def isPrefixList : List Char → List Char → Bool
  | [], _ => true
  | _ :: _, [] => false
  | a :: as, b :: bs => a = b && isPrefixList as bs

/-- Whether `sub` occurs contiguously inside `l`
(`String.prototype.includes`). -/
def hasInfix (sub : List Char) : List Char → Bool
  | [] => isPrefixList sub []
  | c :: cs => isPrefixList sub (c :: cs) || hasInfix sub cs

/-- The characters matched by `\s` in a JavaScript regular expression. -/
def jsWhitespace (c : Char) : Bool :=
  c.val = 9 || c.val = 10 || c.val = 11 || c.val = 12 || c.val = 13 ||
  c.val = 32 || c.val = 0xa0 || c.val = 0x1680 ||
  (0x2000 ≤ c.val && c.val ≤ 0x200a) || c.val = 0x2028 || c.val = 0x2029 ||
  c.val = 0x202f || c.val = 0x205f || c.val = 0x3000 || c.val = 0xfeff

/-- A character matched by `[^\s@]`. -/
def emailChar (c : Char) : Bool := !jsWhitespace c && c ≠ '@'

/-- Split a character list at the first occurrence of `c`, if any. -/
def breakAt (c : Char) : List Char → Option (List Char × List Char)
  | [] => none
  | x :: xs =>
    if x = c then some ([], xs)
    else
      match breakAt c xs with
      | some (l, r) => some (x :: l, r)
      | none => none

/-- The test `/^[^\s@]+@[^\s@]+\.[^\s@]+$/.test s`: exactly one `@` (the
part after the first `@` must itself be `@`-free because every one of its
characters must match `[^\s@]`), a non-empty whitespace-free local part, and
a whitespace-free domain with a dot that is neither its first nor its last
character. -/
def emailMatches (s : String) : Bool :=
  match breakAt '@' s.toList with
  | some (l, d) =>
    !l.isEmpty && l.all emailChar &&
    !d.isEmpty && d.all emailChar &&
    (d.drop 1).dropLast.contains '.'
  | none => false

/-- The configured spam keywords. -/
def spamKeywords : List String :=
  ["casino", "viagra", "porn", "gambling", "crypto mining"]

/-- `contentToCheck`: the lowercased concatenation
`` `${message} ${company || ''} ${firstName} ${lastName}` ``. -/
def contentToCheck (p : FormData) : String :=
  lowerStr (jsStr p.message ++ " " ++ orEmpty p.company ++ " " ++
    jsStr p.firstName ++ " " ++ jsStr p.lastName)

/-- `spamKeywords.some(keyword => contentToCheck.includes(keyword))`. -/
def containsSpam (p : FormData) : Bool :=
  spamKeywords.any fun kw => hasInfix kw.toList (contentToCheck p).toList

/-- The allowed attachment MIME types. -/
def allowedTypes : List String :=
  ["application/pdf",
   "application/msword",
   "application/vnd.openxmlformats-officedocument.wordprocessingml.document",
   "application/vnd.ms-excel",
   "application/vnd.openxmlformats-officedocument.spreadsheetml.sheet",
   "application/zip"]

/-- Whether all five required fields pass the truthiness check
`!data.service || !data.message || !data.firstName || !data.lastName ||
!data.email` (negated). -/
def requiredOk (p : FormData) : Bool :=
  truthy p.service && truthy p.message && truthy p.firstName &&
  truthy p.lastName && truthy p.email

/-- How the body of the handler past the rate-limit gate and the parse
classifies a payload, in the order the checks appear in the source. -/
inductive Outcome where
  | spamHoneypot
  | missingFields
  | invalidEmail
  | spamKeyword
  | invalidFileType
  | fileTooLarge
  | accepted
deriving DecidableEq, Repr

/-- The classification pipeline: honeypot, required fields, email format,
spam keywords, then attachment type and size. -/
def classify (p : FormData) : Outcome :=
  if truthy p.website then .spamHoneypot
  else if !requiredOk p then .missingFields
  else if !emailMatches (jsStr p.email) then .invalidEmail
  else if containsSpam p then .spamKeyword
  else
    match p.attachment with
    | some a =>
      if a.size > 0 then
        if !allowedTypes.contains a.type then .invalidFileType
        else if a.size > 10 * 1024 * 1024 then .fileTooLarge
        else .accepted
      else .accepted
    | none => .accepted

/-- An HTTP response as the handler builds it: status code plus the JSON body
fields `success`, `message`, `error`. -/
structure Resp where
  status : Nat
  success : Bool
  message : Option String
  error : Option String
deriving DecidableEq, Repr

/-- The 429 rate-limited response. -/
def tooManyResp : Resp :=
  ⟨429, false, none, some "Too many submissions. Please try again later."⟩

/-- The silent spam response: HTTP 200, body `{ success: true }`. -/
def spamResp : Resp := ⟨200, true, none, none⟩

/-- The 400 missing-required-fields response. -/
def missingResp : Resp := ⟨400, false, none, some "Missing required fields"⟩

/-- The 400 invalid-email response. -/
def badEmailResp : Resp := ⟨400, false, none, some "Invalid email address"⟩

/-- The 400 invalid-file-type response. -/
def badTypeResp : Resp :=
  ⟨400, false, none,
   some "Invalid file type. Only PDF, DOC, DOCX, XLS, XLSX, ZIP allowed."⟩

/-- The 400 file-too-large response. -/
def tooLargeResp : Resp :=
  ⟨400, false, none, some "File too large. Maximum size is 10MB."⟩

/-- The 200 accepted response with the user-facing confirmation message. -/
def okResp : Resp :=
  ⟨200, true,
   some "Your message has been sent successfully. We\x27ll get back to you within 24 hours.",
   none⟩

/-- The 500 generic failure response produced by the outer catch. -/
def serverErrorResp : Resp :=
  ⟨500, false, none,
   some "An unexpected error occurred. Please try again or contact us directly."⟩

/-- The response each non-accepted classification terminates with, and the
accepted response. -/
def outcomeResp : Outcome → Resp
  | .spamHoneypot => spamResp
  | .missingFields => missingResp
  | .invalidEmail => badEmailResp
  | .spamKeyword => spamResp
  | .invalidFileType => badTypeResp
  | .fileTooLarge => tooLargeResp
  | .accepted => okResp

/-- `clientAddress || 'unknown'`. -/
def clientKey : Option String → String
  | none => "unknown"
  | some s => if s = "" then "unknown" else s

/-- The record fetched at the start of the rate-limit check:
`rateLimitStore.get(clientIP) || { count: 0, resetTime: now + 3600000 }`. -/
def fetchedRecord (store : Store) (key : String) (now : Nat) : RateLimitRecord :=
  (store key).getD ⟨0, now + 3600000⟩

/-- The window-expiry reset: `if (now > rateLimit.resetTime) { count = 0;
resetTime = now + 3600000 }`. -/
def resetRecord (now : Nat) (r : RateLimitRecord) : RateLimitRecord :=
  if now > r.resetTime then ⟨0, now + 3600000⟩ else r

/-- The store as it stands after the reset statement.  When the key is
present, the fetched object is the stored object, so the in-place reset
mutates the store; when the key is absent the fetched object is fresh and the
store is untouched. -/
def storeAfterReset (store : Store) (key : String) (now : Nat) : Store :=
  match store key with
  | some r =>
    if now > r.resetTime then
      fun k => if k = key then some ⟨0, now + 3600000⟩ else store k
    else store
  | none => store

/-- One incoming request: the current time, the client address, whether
`request.formData()` throws, the payload it parses to, the webhook
configuration, and how the outbound webhook call behaves (throws / `ok`). -/
structure Req where
  now : Nat
  clientAddress : Option String
  parseFault : Bool
  form : FormData
  webhookUrl : Option String
  webhookThrows : Bool
  webhookOk : Bool

/-- What became of the notification for an accepted submission. -/
inductive DispatchResult where
  | sent
  | sentButNotOk
  | failedThrown
  | loggedOnly
deriving DecidableEq, Repr

/-- The dispatch block (webhook `fetch` inside `try`/`catch`, console log
when no webhook is configured).  Every branch falls through to the success
response; the result is only observed for logging. -/
def dispatchOutcome (url : Option String) (throws ok : Bool) : DispatchResult :=
  match url with
  | some _ => if throws then .failedThrown else if ok then .sent else .sentButNotOk
  | none => .loggedOnly

/-- One run of the handler: its HTTP response, whether the dispatch section
was reached (`notified`), whether the webhook `fetch` was invoked, the
dispatch result when reached, and the store afterwards. -/
structure StepOut where
  resp : Resp
  notified : Bool
  webhookCalled : Bool
  dispatch : Option DispatchResult
  store : Store

/-- The store after the accepted path runs `rateLimit.count++;
rateLimitStore.set(clientIP, rateLimit)`: the post-reset record with its
count incremented is stored under the key. -/
def acceptStore (s : Store) (key : String) (now : Nat) : Store :=
  fun k =>
    if k = key then
      some ⟨(resetRecord now (fetchedRecord s key now)).count + 1,
            (resetRecord now (fetchedRecord s key now)).resetTime⟩
    else storeAfterReset s key now k

/-- The whole `POST` handler: rate-limit check (with in-place reset), the 429
gate, body parsing (outer catch gives 500), the classification pipeline, and
— only on the accepted path — the rate-limit increment followed by dispatch
and the success response. -/
def step (s : Store) (r : Req) : StepOut :=
  if (resetRecord r.now (fetchedRecord s (clientKey r.clientAddress) r.now)).count ≥ 5 then
    ⟨tooManyResp, false, false, none, storeAfterReset s (clientKey r.clientAddress) r.now⟩
  else if r.parseFault then
    ⟨serverErrorResp, false, false, none, storeAfterReset s (clientKey r.clientAddress) r.now⟩
  else
    match classify r.form with
    | .accepted =>
      ⟨okResp, true, r.webhookUrl.isSome,
       some (dispatchOutcome r.webhookUrl r.webhookThrows r.webhookOk),
       acceptStore s (clientKey r.clientAddress) r.now⟩
    | o => ⟨outcomeResp o, false, false, none, storeAfterReset s (clientKey r.clientAddress) r.now⟩

/-- The store after a sequence of requests. -/
def runAll : Store → List Req → Store
  | s, [] => s
  | s, r :: rs => runAll (step s r).store rs

/-- The HTTP status codes a sequence of requests receives, threading the
store. -/
def statuses : Store → List Req → List Nat
  | _, [] => []
  | s, r :: rs => (step s r).resp.status :: statuses (step s r).store rs

/-- A request carrying payload `p` at time `t` from address `addr`, with no
parse fault and no webhook configured. -/
def plainReq (t : Nat) (addr : Option String) (p : FormData) : Req :=
  ⟨t, addr, false, p, none, false, true⟩

/-- A concrete well-formed, non-spam payload used by witnesses. -/
def okForm : FormData :=
  ⟨some "Data Entry", none, none, none, some "Hello, I need help.",
   some "Jane", some "Doe", some "jane@example.com", none, none, none, none⟩

/-! ## Basic lemmas about the rate-limit bookkeeping -/

theorem fetchedRecord_some {s : Store} {key : String} {rec : RateLimitRecord}
    (now : Nat) (hk : s key = some rec) : fetchedRecord s key now = rec := by
  simp [fetchedRecord, hk]

theorem fetchedRecord_none {s : Store} {key : String} (now : Nat)
    (hk : s key = none) : fetchedRecord s key now = ⟨0, now + 3600000⟩ := by
  simp [fetchedRecord, hk]

theorem resetRecord_live {now : Nat} {r : RateLimitRecord}
    (h : ¬ now > r.resetTime) : resetRecord now r = r := by
  simp [resetRecord, h]

theorem resetRecord_expired {now : Nat} {r : RateLimitRecord}
    (h : now > r.resetTime) : resetRecord now r = ⟨0, now + 3600000⟩ := by
  simp [resetRecord, h]

theorem storeAfterReset_none {s : Store} {key : String} (now : Nat)
    (hk : s key = none) : storeAfterReset s key now = s := by
  unfold storeAfterReset
  rw [hk]

theorem storeAfterReset_live {s : Store} {key : String} {rec : RateLimitRecord}
    {now : Nat} (hk : s key = some rec) (h : ¬ now > rec.resetTime) :
    storeAfterReset s key now = s := by
  simp [storeAfterReset, hk, h]

theorem storeAfterReset_expired {s : Store} {key : String} {rec : RateLimitRecord}
    {now : Nat} (hk : s key = some rec) (h : now > rec.resetTime) :
    storeAfterReset s key now =
      fun k => if k = key then some ⟨0, now + 3600000⟩ else s k := by
  simp [storeAfterReset, hk, h]

theorem acceptStore_at_key (s : Store) (key : String) (now : Nat) :
    acceptStore s key now key =
      some ⟨(resetRecord now (fetchedRecord s key now)).count + 1,
            (resetRecord now (fetchedRecord s key now)).resetTime⟩ := by
  simp [acceptStore]

/-! ## Branch lemmas for `step` -/

theorem step_limited {s : Store} {r : Req}
    (hgate : (resetRecord r.now (fetchedRecord s (clientKey r.clientAddress) r.now)).count ≥ 5) :
    step s r = ⟨tooManyResp, false, false, none,
      storeAfterReset s (clientKey r.clientAddress) r.now⟩ := by
  unfold step
  rw [if_pos hgate]

theorem step_fault {s : Store} {r : Req}
    (hgate : (resetRecord r.now (fetchedRecord s (clientKey r.clientAddress) r.now)).count < 5)
    (hp : r.parseFault = true) :
    step s r = ⟨serverErrorResp, false, false, none,
      storeAfterReset s (clientKey r.clientAddress) r.now⟩ := by
  unfold step
  rw [if_neg (by omega), hp, if_pos rfl]

theorem step_accept {s : Store} {r : Req}
    (hgate : (resetRecord r.now (fetchedRecord s (clientKey r.clientAddress) r.now)).count < 5)
    (hp : r.parseFault = false) (hacc : classify r.form = .accepted) :
    step s r = ⟨okResp, true, r.webhookUrl.isSome,
      some (dispatchOutcome r.webhookUrl r.webhookThrows r.webhookOk),
      acceptStore s (clientKey r.clientAddress) r.now⟩ := by
  unfold step
  rw [if_neg (by omega), hp, if_neg (by simp), hacc]

theorem step_notAccepted {s : Store} {r : Req} {o : Outcome}
    (hgate : (resetRecord r.now (fetchedRecord s (clientKey r.clientAddress) r.now)).count < 5)
    (hp : r.parseFault = false) (ho : classify r.form = o) (hne : o ≠ .accepted) :
    step s r = ⟨outcomeResp o, false, false, none,
      storeAfterReset s (clientKey r.clientAddress) r.now⟩ := by
  unfold step
  rw [if_neg (by omega), hp, if_neg (by simp), ho]
  cases o <;> first | rfl | exact absurd rfl hne

/-! ## Sequencing lemmas: response and store-at-key for one handler run -/

theorem step_run_fresh {s : Store} {r : Req}
    (hk : s (clientKey r.clientAddress) = none)
    (hp : r.parseFault = false) (hacc : classify r.form = .accepted) :
    (step s r).resp = okResp ∧
    (step s r).store (clientKey r.clientAddress) = some ⟨1, r.now + 3600000⟩ := by
  have hf : fetchedRecord s (clientKey r.clientAddress) r.now = ⟨0, r.now + 3600000⟩ :=
    fetchedRecord_none r.now hk
  have hrl : resetRecord r.now (fetchedRecord s (clientKey r.clientAddress) r.now) =
      ⟨0, r.now + 3600000⟩ := by
    rw [hf]
    exact resetRecord_live (by simp)
  rw [step_accept (by rw [hrl]; simp) hp hacc]
  refine ⟨rfl, ?_⟩
  show acceptStore s (clientKey r.clientAddress) r.now (clientKey r.clientAddress) = _
  rw [acceptStore_at_key, hrl]

theorem step_run_live {s : Store} {r : Req} {c R : Nat}
    (hk : s (clientKey r.clientAddress) = some ⟨c, R⟩)
    (hnr : ¬ r.now > R) (hc : c < 5)
    (hp : r.parseFault = false) (hacc : classify r.form = .accepted) :
    (step s r).resp = okResp ∧
    (step s r).store (clientKey r.clientAddress) = some ⟨c + 1, R⟩ := by
  have hf : fetchedRecord s (clientKey r.clientAddress) r.now = ⟨c, R⟩ :=
    fetchedRecord_some r.now hk
  have hrl : resetRecord r.now (fetchedRecord s (clientKey r.clientAddress) r.now) =
      ⟨c, R⟩ := by
    rw [hf]
    exact resetRecord_live hnr
  rw [step_accept (by rw [hrl]; simpa) hp hacc]
  refine ⟨rfl, ?_⟩
  show acceptStore s (clientKey r.clientAddress) r.now (clientKey r.clientAddress) = _
  rw [acceptStore_at_key, hrl]

theorem step_run_expired {s : Store} {r : Req} {c R : Nat}
    (hk : s (clientKey r.clientAddress) = some ⟨c, R⟩)
    (hr : r.now > R)
    (hp : r.parseFault = false) (hacc : classify r.form = .accepted) :
    (step s r).resp = okResp ∧
    (step s r).store (clientKey r.clientAddress) = some ⟨1, r.now + 3600000⟩ := by
  have hf : fetchedRecord s (clientKey r.clientAddress) r.now = ⟨c, R⟩ :=
    fetchedRecord_some r.now hk
  have hrl : resetRecord r.now (fetchedRecord s (clientKey r.clientAddress) r.now) =
      ⟨0, r.now + 3600000⟩ := by
    rw [hf]
    exact resetRecord_expired hr
  rw [step_accept (by rw [hrl]; simp) hp hacc]
  refine ⟨rfl, ?_⟩
  show acceptStore s (clientKey r.clientAddress) r.now (clientKey r.clientAddress) = _
  rw [acceptStore_at_key, hrl]

theorem step_run_limited {s : Store} {r : Req} {c R : Nat}
    (hk : s (clientKey r.clientAddress) = some ⟨c, R⟩)
    (hnr : ¬ r.now > R) (hc : 5 ≤ c) :
    (step s r).resp = tooManyResp ∧ (step s r).store = s := by
  have hf : fetchedRecord s (clientKey r.clientAddress) r.now = ⟨c, R⟩ :=
    fetchedRecord_some r.now hk
  have hrl : resetRecord r.now (fetchedRecord s (clientKey r.clientAddress) r.now) =
      ⟨c, R⟩ := by
    rw [hf]
    exact resetRecord_live hnr
  rw [step_limited (by rw [hrl]; simpa)]
  exact ⟨rfl, storeAfterReset_live hk hnr⟩

/-! ## The claims -/

/-- Claim C1: for a fixed client identity submitting a fixed valid, non-spam
payload, the 1st through 5th submissions within one rolling hour each return
HTTP 200, the 6th within the same window returns HTTP 429, and once the
current time exceeds the window reset timestamp a subsequent submission
returns HTTP 200 again. -/
theorem claim1_rate_limit_window (p : FormData) (addr : Option String)
    (hacc : classify p = .accepted)
    (t1 t2 t3 t4 t5 t6 t7 : Nat)
    (h2 : t2 ≤ t1 + 3600000) (h3 : t3 ≤ t1 + 3600000) (h4 : t4 ≤ t1 + 3600000)
    (h5 : t5 ≤ t1 + 3600000) (h6 : t6 ≤ t1 + 3600000) (h7 : t1 + 3600000 < t7) :
    statuses emptyStore
      [plainReq t1 addr p, plainReq t2 addr p, plainReq t3 addr p,
       plainReq t4 addr p, plainReq t5 addr p, plainReq t6 addr p,
       plainReq t7 addr p] = [200, 200, 200, 200, 200, 429, 200] := by
  have hk1 : emptyStore (clientKey (plainReq t1 addr p).clientAddress) = none := rfl
  obtain ⟨hr1, hs1⟩ := step_run_fresh (r := plainReq t1 addr p) hk1 rfl hacc
  obtain ⟨hr2, hs2⟩ := step_run_live (r := plainReq t2 addr p) hs1
    (by show ¬ t2 > t1 + 3600000; omega) (by omega) rfl hacc
  obtain ⟨hr3, hs3⟩ := step_run_live (r := plainReq t3 addr p) hs2
    (by show ¬ t3 > t1 + 3600000; omega) (by omega) rfl hacc
  obtain ⟨hr4, hs4⟩ := step_run_live (r := plainReq t4 addr p) hs3
    (by show ¬ t4 > t1 + 3600000; omega) (by omega) rfl hacc
  obtain ⟨hr5, hs5⟩ := step_run_live (r := plainReq t5 addr p) hs4
    (by show ¬ t5 > t1 + 3600000; omega) (by omega) rfl hacc
  obtain ⟨hr6, hs6⟩ := step_run_limited (r := plainReq t6 addr p) hs5
    (by show ¬ t6 > t1 + 3600000; omega) (by omega)
  obtain ⟨hr7, _⟩ := step_run_expired (r := plainReq t7 addr p) (hs6.symm ▸ hs5)
    (by show t7 > t1 + 3600000; omega) rfl hacc
  simp only [statuses]
  rw [hr1, hr2, hr3, hr4, hr5, hr6, hr7]
  rfl

/-- Witness for C1: the concrete payload `okForm` from the address-less
client, submitted at times 0..5 ms and then just past the hour window. -/
theorem claim1_rate_limit_window_witness :
    classify okForm = Outcome.accepted ∧
    statuses emptyStore
      [plainReq 0 none okForm, plainReq 1 none okForm, plainReq 2 none okForm,
       plainReq 3 none okForm, plainReq 4 none okForm, plainReq 5 none okForm,
       plainReq 3600001 none okForm] = [200, 200, 200, 200, 200, 429, 200] :=
  ⟨by decide,
   claim1_rate_limit_window okForm none (by decide) 0 1 2 3 4 5 3600001
     (by decide) (by decide) (by decide) (by decide) (by decide) (by decide)⟩

/-- Helper: a honeypot-tripped payload, or a well-formed payload whose
checked content contains a spam keyword, classifies as spam. -/
theorem classify_spam {p : FormData}
    (hspam : truthy p.website = true ∨
      (truthy p.website = false ∧ requiredOk p = true ∧
       emailMatches (jsStr p.email) = true ∧ containsSpam p = true)) :
    classify p = .spamHoneypot ∨ classify p = .spamKeyword := by
  rcases hspam with h | ⟨h1, h2, h3, h4⟩
  · left
    simp [classify, h]
  · right
    simp [classify, h1, h2, h3, h4]

/-- Helper: a spam-classified request that passes the rate-limit gate and
parses gets the bare success response, with no notification. -/
theorem step_spam {s : Store} {r : Req}
    (hgate : (resetRecord r.now (fetchedRecord s (clientKey r.clientAddress) r.now)).count < 5)
    (hp : r.parseFault = false)
    (hspam : truthy r.form.website = true ∨
      (truthy r.form.website = false ∧ requiredOk r.form = true ∧
       emailMatches (jsStr r.form.email) = true ∧ containsSpam r.form = true)) :
    step s r = ⟨spamResp, false, false, none,
      storeAfterReset s (clientKey r.clientAddress) r.now⟩ := by
  rcases classify_spam hspam with ho | ho
  · exact step_notAccepted hgate hp ho (by decide)
  · exact step_notAccepted hgate hp ho (by decide)

/-- A concrete spam payload: the accepted payload `okForm` with the honeypot
field filled in. -/
def spamTwin : FormData := { okForm with website := some "spam-bot" }

/-- Claim C3: every spam-classified submission — honeypot non-empty
(regardless of the other fields), or a spam keyword occurring in the checked
content of an otherwise well-formed submission — gets HTTP 200 with
`success = true`, and the notification dispatcher is never reached (no
webhook call). -/
theorem claim3_spam_silent_success (s : Store) (r : Req)
    (hgate : (resetRecord r.now (fetchedRecord s (clientKey r.clientAddress) r.now)).count < 5)
    (hp : r.parseFault = false)
    (hspam : truthy r.form.website = true ∨
      (truthy r.form.website = false ∧ requiredOk r.form = true ∧
       emailMatches (jsStr r.form.email) = true ∧ containsSpam r.form = true)) :
    (step s r).resp.status = 200 ∧ (step s r).resp.success = true ∧
    (step s r).resp = spamResp ∧ (step s r).notified = false ∧
    (step s r).webhookCalled = false ∧ (step s r).dispatch = none := by
  rw [step_spam hgate hp hspam]
  exact ⟨rfl, rfl, rfl, rfl, rfl, rfl⟩

/-- Witness for C3: the honeypot-filled payload `spamTwin` on a fresh store. -/
theorem claim3_spam_silent_success_witness :
    truthy spamTwin.website = true ∧
    ((step emptyStore (plainReq 0 none spamTwin)).resp.status = 200 ∧
     (step emptyStore (plainReq 0 none spamTwin)).resp.success = true ∧
     (step emptyStore (plainReq 0 none spamTwin)).resp = spamResp ∧
     (step emptyStore (plainReq 0 none spamTwin)).notified = false ∧
     (step emptyStore (plainReq 0 none spamTwin)).webhookCalled = false ∧
     (step emptyStore (plainReq 0 none spamTwin)).dispatch = none) :=
  ⟨by decide,
   claim3_spam_silent_success emptyStore (plainReq 0 none spamTwin)
     (by decide) rfl (Or.inl (by decide))⟩

/-- Claim C4 counterexample: the spam response is NOT identical to the
accepted response.  `spamTwin` differs from the accepted payload `okForm`
only in the honeypot field; both runs return status 200, but the bodies
differ (the accepted body carries a confirmation message, the spam body does
not), so the claim of identical responses fails at this input. -/
theorem claim4_counterexample :
    spamTwin = { okForm with website := some "spam-bot" } ∧
    classify okForm = Outcome.accepted ∧
    (step emptyStore (plainReq 0 none spamTwin)).resp.status =
      (step emptyStore (plainReq 0 none okForm)).resp.status ∧
    (step emptyStore (plainReq 0 none spamTwin)).resp ≠
      (step emptyStore (plainReq 0 none okForm)).resp := by
  decide

/-- Claim C4 amended: a spam-classified run and an accepted run agree on the
status code (200) and on `success = true`, but the responses are not
identical: the accepted body carries a confirmation message while the spam
body has none. -/
theorem claim4_amended_status_match (s q : Store) (r w : Req)
    (hgate1 : (resetRecord r.now (fetchedRecord s (clientKey r.clientAddress) r.now)).count < 5)
    (hp1 : r.parseFault = false)
    (hspam : truthy r.form.website = true ∨
      (truthy r.form.website = false ∧ requiredOk r.form = true ∧
       emailMatches (jsStr r.form.email) = true ∧ containsSpam r.form = true))
    (hgate2 : (resetRecord w.now (fetchedRecord q (clientKey w.clientAddress) w.now)).count < 5)
    (hp2 : w.parseFault = false)
    (hacc : classify w.form = .accepted) :
    (step s r).resp.status = (step q w).resp.status ∧
    (step s r).resp.success = (step q w).resp.success ∧
    (step s r).resp.message = none ∧
    (step q w).resp.message.isSome = true ∧
    (step s r).resp ≠ (step q w).resp := by
  rw [step_spam hgate1 hp1 hspam, step_accept hgate2 hp2 hacc]
  exact ⟨rfl, rfl, rfl, rfl, by show spamResp ≠ okResp; decide⟩

/-- Witness for the amended C4: the honeypot-filled `spamTwin` against the
accepted `okForm`, both on a fresh store. -/
theorem claim4_amended_status_match_witness :
    truthy spamTwin.website = true ∧ classify okForm = Outcome.accepted ∧
    ((step emptyStore (plainReq 0 none spamTwin)).resp.status =
       (step emptyStore (plainReq 1 none okForm)).resp.status ∧
     (step emptyStore (plainReq 0 none spamTwin)).resp.success =
       (step emptyStore (plainReq 1 none okForm)).resp.success ∧
     (step emptyStore (plainReq 0 none spamTwin)).resp.message = none ∧
     (step emptyStore (plainReq 1 none okForm)).resp.message.isSome = true ∧
     (step emptyStore (plainReq 0 none spamTwin)).resp ≠
       (step emptyStore (plainReq 1 none okForm)).resp) :=
  ⟨by decide, by decide,
   claim4_amended_status_match emptyStore emptyStore
     (plainReq 0 none spamTwin) (plainReq 1 none okForm)
     (by decide) rfl (Or.inl (by decide)) (by decide) rfl (by decide)⟩

/-- Claim C5: for a submission that reaches the file check (well-formed,
non-spam): a present non-empty attachment of a disallowed MIME type yields
the 400 invalid-file-type response; an allowed type with size strictly over
10 x 1024 x 1024 bytes yields the 400 file-too-large response; an allowed
type of size at most 10 MiB passes and the submission is accepted; an absent
or zero-size attachment is always treated as valid. -/
theorem claim5_attachment_policy (s : Store) (r : Req)
    (hgate : (resetRecord r.now (fetchedRecord s (clientKey r.clientAddress) r.now)).count < 5)
    (hp : r.parseFault = false)
    (hhp : truthy r.form.website = false) (hreq : requiredOk r.form = true)
    (hem : emailMatches (jsStr r.form.email) = true)
    (hns : containsSpam r.form = false) :
    (∀ a : Attachment, r.form.attachment = some a → 0 < a.size →
      (allowedTypes.contains a.type = false → (step s r).resp = badTypeResp) ∧
      (allowedTypes.contains a.type = true → 10 * 1024 * 1024 < a.size →
        (step s r).resp = tooLargeResp) ∧
      (allowedTypes.contains a.type = true → a.size ≤ 10 * 1024 * 1024 →
        (step s r).resp = okResp)) ∧
    ((r.form.attachment = none ∨ (∃ a, r.form.attachment = some a ∧ a.size = 0)) →
      (step s r).resp = okResp) := by
  constructor
  · intro a ha hsz
    refine ⟨fun hbad => ?_, fun hok hbig => ?_, fun hok hsmall => ?_⟩
    · have hbad2 : ¬ a.type ∈ allowedTypes := by simpa using hbad
      have hcl : classify r.form = .invalidFileType := by
        simp [classify, hhp, hreq, hem, hns, ha, hsz, hbad2]
      rw [step_notAccepted hgate hp hcl (by decide)]
      rfl
    · have hok2 : a.type ∈ allowedTypes := by simpa using hok
      have hcl : classify r.form = .fileTooLarge := by
        simp [classify, hhp, hreq, hem, hns, ha, hsz, hok2, hbig]
      rw [step_notAccepted hgate hp hcl (by decide)]
      rfl
    · have hok2 : a.type ∈ allowedTypes := by simpa using hok
      have hnb : ¬ a.size > 10 * 1024 * 1024 := by omega
      have hcl : classify r.form = .accepted := by
        simp [classify, hhp, hreq, hem, hns, ha, hsz, hok2, hnb]
      rw [step_accept hgate hp hcl]
  · intro h
    have hcl : classify r.form = .accepted := by
      rcases h with h | ⟨a, ha, hz⟩
      · simp [classify, hhp, hreq, hem, hns, h]
      · simp [classify, hhp, hreq, hem, hns, ha, hz]
    rw [step_accept hgate hp hcl]

/-- A payload with a 5 MiB PDF attachment, otherwise equal to `okForm`. -/
def pdfForm : FormData :=
  { okForm with attachment := some ⟨"application/pdf", 5 * 1024 * 1024⟩ }

/-- Witness for C5: the 5 MiB PDF payload on a fresh store is accepted. -/
theorem claim5_attachment_policy_witness :
    pdfForm.attachment = some ⟨"application/pdf", 5 * 1024 * 1024⟩ ∧
    requiredOk pdfForm = true ∧
    (step emptyStore (plainReq 0 none pdfForm)).resp = okResp :=
  ⟨by decide, by decide,
   ((claim5_attachment_policy emptyStore (plainReq 0 none pdfForm)
       (by decide) rfl (by decide) (by decide) (by decide) (by decide)).1
     ⟨"application/pdf", 5 * 1024 * 1024⟩ rfl (by decide)).2.2
     (by decide) (by decide)⟩

/-- The accepted payload with its required `firstName` field replaced by a
single space: non-empty, but empty after trimming. -/
def wsForm : FormData := { okForm with firstName := some " " }

/-- Claim C6 counterexample: the handler does NOT trim required fields.  A
payload whose required `firstName` is the one-character whitespace string
" " — which trims to the empty string — is not rejected with the 400
missing-required-fields response; it is accepted with HTTP 200. -/
theorem claim6_counterexample :
    wsForm.firstName = some " " ∧
    (" " : String).toList.all jsWhitespace = true ∧
    (step emptyStore (plainReq 0 none wsForm)).resp ≠ missingResp ∧
    (step emptyStore (plainReq 0 none wsForm)).resp = okResp := by
  refine ⟨rfl, by decide, ?_, ?_⟩ <;> decide

/-- Claim C6 amended: validation rejects with the 400 missing-required-fields
response every payload (that passes the rate-limit gate, parses, and does not
trip the honeypot) in which any of service, message, firstName, lastName,
email is absent or is exactly the empty string.  No trimming is applied, so a
whitespace-only field counts as present. -/
theorem claim6_amended_missing_fields (s : Store) (r : Req)
    (hgate : (resetRecord r.now (fetchedRecord s (clientKey r.clientAddress) r.now)).count < 5)
    (hp : r.parseFault = false) (hhp : truthy r.form.website = false)
    (hmiss : truthy r.form.service = false ∨ truthy r.form.message = false ∨
             truthy r.form.firstName = false ∨ truthy r.form.lastName = false ∨
             truthy r.form.email = false) :
    (step s r).resp = missingResp ∧ (step s r).resp.status = 400 := by
  have hro : requiredOk r.form = false := by
    unfold requiredOk
    rcases hmiss with h | h | h | h | h <;> simp [h]
  have hcl : classify r.form = .missingFields := by
    simp [classify, hhp, hro]
  rw [step_notAccepted hgate hp hcl (by decide)]
  exact ⟨rfl, rfl⟩

/-- The accepted payload with its required email removed. -/
def missForm : FormData := { okForm with email := none }

/-- Witness for the amended C6: a payload missing `email` gets the 400
missing-required-fields response. -/
theorem claim6_amended_missing_fields_witness :
    truthy missForm.email = false ∧
    ((step emptyStore (plainReq 0 none missForm)).resp = missingResp ∧
     (step emptyStore (plainReq 0 none missForm)).resp.status = 400) :=
  ⟨by decide,
   claim6_amended_missing_fields emptyStore (plainReq 0 none missForm)
     (by decide) rfl (by decide)
     (Or.inr (Or.inr (Or.inr (Or.inr (by decide)))))⟩

/-- Claim C7: for a valid, non-spam submission with a webhook URL configured,
the webhook delivery outcome — including a thrown network error (`wt = true`)
or a non-2xx response (`wo = false`) — never changes the HTTP outcome: the
handler still returns the 200 success response with the confirmation
message, and the webhook call is made. -/
theorem claim7_dispatch_failure_still_ok (s : Store) (t : Nat)
    (addr : Option String) (p : FormData) (u : String) (wt wo : Bool)
    (hgate : (resetRecord t (fetchedRecord s (clientKey addr) t)).count < 5)
    (hacc : classify p = .accepted) :
    (step s ⟨t, addr, false, p, some u, wt, wo⟩).resp = okResp ∧
    (step s ⟨t, addr, false, p, some u, wt, wo⟩).resp.status = 200 ∧
    (step s ⟨t, addr, false, p, some u, wt, wo⟩).resp.success = true ∧
    (step s ⟨t, addr, false, p, some u, wt, wo⟩).webhookCalled = true ∧
    (wt = true → (step s ⟨t, addr, false, p, some u, wt, wo⟩).dispatch =
      some DispatchResult.failedThrown) ∧
    (wt = false → wo = false →
      (step s ⟨t, addr, false, p, some u, wt, wo⟩).dispatch =
        some DispatchResult.sentButNotOk) := by
  rw [step_accept (r := ⟨t, addr, false, p, some u, wt, wo⟩) hgate rfl hacc]
  refine ⟨rfl, rfl, rfl, rfl, fun h1 => ?_, fun h1 h2 => ?_⟩
  · subst h1
    rfl
  · subst h1
    subst h2
    rfl

/-- Witness for C7: the accepted payload with a configured webhook whose
call throws; the response is still the 200 success response. -/
theorem claim7_dispatch_failure_still_ok_witness :
    classify okForm = Outcome.accepted ∧
    ((step emptyStore ⟨0, none, false, okForm, some "https://hooks.example/contact", true, false⟩).resp = okResp ∧
     (step emptyStore ⟨0, none, false, okForm, some "https://hooks.example/contact", true, false⟩).resp.status = 200 ∧
     (step emptyStore ⟨0, none, false, okForm, some "https://hooks.example/contact", true, false⟩).resp.success = true ∧
     (step emptyStore ⟨0, none, false, okForm, some "https://hooks.example/contact", true, false⟩).webhookCalled = true ∧
     (true = true → (step emptyStore ⟨0, none, false, okForm, some "https://hooks.example/contact", true, false⟩).dispatch =
       some DispatchResult.failedThrown) ∧
     (true = false → false = false →
       (step emptyStore ⟨0, none, false, okForm, some "https://hooks.example/contact", true, false⟩).dispatch =
         some DispatchResult.sentButNotOk)) :=
  ⟨by decide,
   claim7_dispatch_failure_still_ok emptyStore 0 none okForm
     "https://hooks.example/contact" true false (by decide) (by decide)⟩

/-- Every record in the store has `count ≤ 5`. -/
def countsBounded (s : Store) : Prop :=
  ∀ k rec, s k = some rec → rec.count ≤ 5

/-- Helper: the in-place reset preserves the count bound. -/
theorem countsBounded_storeAfterReset {s : Store} (key : String) (now : Nat)
    (h : countsBounded s) : countsBounded (storeAfterReset s key now) := by
  cases hsk : s key with
  | none =>
    rw [storeAfterReset_none now hsk]
    exact h
  | some r0 =>
    by_cases hnow : now > r0.resetTime
    · rw [storeAfterReset_expired hsk hnow]
      intro k rec hk
      have hk2 : (if k = key then some (⟨0, now + 3600000⟩ : RateLimitRecord)
          else s k) = some rec := hk
      by_cases hkk : k = key
      · rw [if_pos hkk] at hk2
        cases hk2
        exact Nat.zero_le 5
      · rw [if_neg hkk] at hk2
        exact h k rec hk2
    · rw [storeAfterReset_live hsk hnow]
      exact h

/-- Helper: the accepted-path store preserves the count bound whenever the
gate admitted the request. -/
theorem countsBounded_acceptStore {s : Store} {key : String} {now : Nat}
    (h : countsBounded s)
    (hgate : (resetRecord now (fetchedRecord s key now)).count < 5) :
    countsBounded (acceptStore s key now) := by
  intro k rec hk
  unfold acceptStore at hk
  by_cases hkk : k = key
  · rw [if_pos hkk] at hk
    cases hk
    show (resetRecord now (fetchedRecord s key now)).count + 1 ≤ 5
    omega
  · rw [if_neg hkk] at hk
    exact countsBounded_storeAfterReset key now h k rec hk

/-- Helper: one handler run preserves the count bound. -/
theorem countsBounded_step {s : Store} (r : Req) (h : countsBounded s) :
    countsBounded (step s r).store := by
  unfold step
  by_cases hgate :
      (resetRecord r.now (fetchedRecord s (clientKey r.clientAddress) r.now)).count ≥ 5
  · rw [if_pos hgate]
    exact countsBounded_storeAfterReset _ _ h
  · rw [if_neg hgate]
    cases hpf : r.parseFault with
    | true =>
      rw [if_pos rfl]
      exact countsBounded_storeAfterReset _ _ h
    | false =>
      rw [if_neg (by decide)]
      cases hcl : classify r.form <;>
        first
          | exact countsBounded_acceptStore h (by omega)
          | exact countsBounded_storeAfterReset _ _ h

/-- Helper: running any request list preserves the count bound. -/
theorem countsBounded_runAll (reqs : List Req) :
    ∀ s : Store, countsBounded s → countsBounded (runAll s reqs) := by
  induction reqs with
  | nil =>
    intro s h
    exact h
  | cons r rs ih =>
    intro s h
    exact ih _ (countsBounded_step r h)

/-- Claim C8: rate-limit store invariant — in every state reachable from the
empty store by any sequence of requests, every record has `count ≤ 5`; the
increment can only run after the below-threshold gate has passed. -/
theorem claim8_count_invariant (reqs : List Req) :
    countsBounded (runAll emptyStore reqs) := by
  apply countsBounded_runAll
  intro k rec hk
  simp [emptyStore] at hk

/-- A store holding an expired record (reset time 5) for the address
1.2.3.4. -/
def expiredStore : Store :=
  fun k => if k = "1.2.3.4" then some ⟨3, 5⟩ else none

/-- Claim C9 counterexample: a spam-terminating request does NOT always leave
the store unchanged.  With an existing expired record for 1.2.3.4, a
honeypot-spam request at time 10 terminates with the 200 spam response, yet
the in-place window reset has mutated the stored record from count 3 to
count 0 with a new reset time. -/
theorem claim9_counterexample :
    (step expiredStore (plainReq 10 (some "1.2.3.4") spamTwin)).resp = spamResp ∧
    (step expiredStore (plainReq 10 (some "1.2.3.4") spamTwin)).notified = false ∧
    expiredStore "1.2.3.4" = some ⟨3, 5⟩ ∧
    (step expiredStore (plainReq 10 (some "1.2.3.4") spamTwin)).store "1.2.3.4" =
      some ⟨0, 3600010⟩ ∧
    (step expiredStore (plainReq 10 (some "1.2.3.4") spamTwin)).store "1.2.3.4" ≠
      expiredStore "1.2.3.4" := by
  decide

/-- Claim C9 amended: requests that do not reach the accepted path never
create a record and never advance a counter; the only mutation they can make
is the in-place reset of an already existing expired record for their own key
during the rate-limit check.  Keys other than the client key are untouched, a
missing record stays missing, and when the existing record is unexpired the
store is exactly unchanged. -/
theorem claim9_amended_frame (s : Store) (r : Req)
    (hn : (step s r).notified = false) :
    (step s r).store = storeAfterReset s (clientKey r.clientAddress) r.now ∧
    (∀ k, k ≠ clientKey r.clientAddress → (step s r).store k = s k) ∧
    (s (clientKey r.clientAddress) = none →
      (step s r).store (clientKey r.clientAddress) = none) ∧
    (∀ rec, s (clientKey r.clientAddress) = some rec → ¬ r.now > rec.resetTime →
      (step s r).store = s) := by
  have hmain : (step s r).store = storeAfterReset s (clientKey r.clientAddress) r.now := by
    unfold step at hn ⊢
    by_cases hgate :
        (resetRecord r.now (fetchedRecord s (clientKey r.clientAddress) r.now)).count ≥ 5
    · rw [if_pos hgate]
    · rw [if_neg hgate] at hn ⊢
      cases hpf : r.parseFault with
      | true =>
        rw [if_pos rfl]
      | false =>
        rw [hpf] at hn
        rw [if_neg (by decide)] at hn ⊢
        cases hcl : classify r.form with
        | accepted =>
          rw [hcl] at hn
          simp at hn
        | spamHoneypot => rfl
        | missingFields => rfl
        | invalidEmail => rfl
        | spamKeyword => rfl
        | invalidFileType => rfl
        | fileTooLarge => rfl
  refine ⟨hmain, ?_, ?_, ?_⟩
  · intro k hkk
    rw [hmain]
    cases hsk : s (clientKey r.clientAddress) with
    | none => rw [storeAfterReset_none _ hsk]
    | some r0 =>
      by_cases hnow : r.now > r0.resetTime
      · rw [storeAfterReset_expired hsk hnow]
        exact if_neg hkk
      · rw [storeAfterReset_live hsk hnow]
  · intro h0
    rw [hmain, storeAfterReset_none _ h0]
    exact h0
  · intro rec hrec hnr
    rw [hmain, storeAfterReset_live hrec hnr]

/-- Witness for the amended C9: a honeypot-spam request from a fresh identity
leaves the empty store with no record for that identity. -/
theorem claim9_amended_frame_witness :
    (step emptyStore (plainReq 3 none spamTwin)).notified = false ∧
    ((step emptyStore (plainReq 3 none spamTwin)).store =
       storeAfterReset emptyStore (clientKey (plainReq 3 none spamTwin).clientAddress)
         (plainReq 3 none spamTwin).now ∧
     (∀ k, k ≠ clientKey (plainReq 3 none spamTwin).clientAddress →
       (step emptyStore (plainReq 3 none spamTwin)).store k = emptyStore k) ∧
     (emptyStore (clientKey (plainReq 3 none spamTwin).clientAddress) = none →
       (step emptyStore (plainReq 3 none spamTwin)).store
         (clientKey (plainReq 3 none spamTwin).clientAddress) = none) ∧
     (∀ rec, emptyStore (clientKey (plainReq 3 none spamTwin).clientAddress) = some rec →
       ¬ (plainReq 3 none spamTwin).now > rec.resetTime →
       (step emptyStore (plainReq 3 none spamTwin)).store = emptyStore)) :=
  ⟨by decide, claim9_amended_frame emptyStore (plainReq 3 none spamTwin) (by decide)⟩

/-- Claim C2 counterexample: a spam submission from a fresh identity passes
the rate-limit gate (it is not rejected with 429) but the per-identity
counter is NOT advanced at pipeline step 1: after the run the store still has
no record for the identity, instead of a record with count 1. -/
theorem claim2_counterexample :
    (step emptyStore (plainReq 7 none spamTwin)).resp.status = 200 ∧
    (step emptyStore (plainReq 7 none spamTwin)).resp ≠ tooManyResp ∧
    emptyStore "unknown" = none ∧
    (step emptyStore (plainReq 7 none spamTwin)).store "unknown" = none ∧
    (step emptyStore (plainReq 7 none spamTwin)).store "unknown" ≠
      some ⟨1, 7 + 3600000⟩ := by
  decide

/-- Claim C2 amended: a request whose post-reset record has count below the
threshold passes the rate-limit gate, but the counter is advanced only at the
end of the fully-accepted path, after parsing, spam checks and validation:
on that path the record is stored with the post-reset count plus one (fresh
identities get count 1 with a fresh window); on every other path the store
keeps only the in-place reset, and a fresh identity gets no record at all. -/
theorem claim2_amended_counter_on_accept (s : Store) (r : Req)
    (hgate : (resetRecord r.now (fetchedRecord s (clientKey r.clientAddress) r.now)).count < 5) :
    (step s r).resp ≠ tooManyResp ∧
    ((step s r).notified = true →
      (step s r).store (clientKey r.clientAddress) =
        some ⟨(resetRecord r.now (fetchedRecord s (clientKey r.clientAddress) r.now)).count + 1,
              (resetRecord r.now (fetchedRecord s (clientKey r.clientAddress) r.now)).resetTime⟩) ∧
    ((step s r).notified = true → s (clientKey r.clientAddress) = none →
      (step s r).store (clientKey r.clientAddress) = some ⟨1, r.now + 3600000⟩) ∧
    ((step s r).notified = false →
      (step s r).store = storeAfterReset s (clientKey r.clientAddress) r.now) := by
  cases hpf : r.parseFault with
  | true =>
    rw [step_fault hgate hpf]
    exact ⟨fun h => by simp [serverErrorResp, tooManyResp] at h,
           fun h => by simp at h,
           fun h _ => by simp at h,
           fun _ => rfl⟩
  | false =>
    cases hcl : classify r.form with
    | accepted =>
      rw [step_accept hgate hpf hcl]
      refine ⟨fun h => by simp [okResp, tooManyResp] at h,
              fun _ => ?_, fun _ h0 => ?_, fun h => by simp at h⟩
      · show acceptStore s (clientKey r.clientAddress) r.now
          (clientKey r.clientAddress) = _
        rw [acceptStore_at_key]
      · show acceptStore s (clientKey r.clientAddress) r.now
          (clientKey r.clientAddress) = _
        rw [acceptStore_at_key, fetchedRecord_none r.now h0,
          resetRecord_live (by simp)]
    | spamHoneypot =>
      rw [step_notAccepted hgate hpf hcl (by decide)]
      exact ⟨fun h => by simp [outcomeResp, spamResp, tooManyResp] at h,
             fun h => by simp at h, fun h _ => by simp at h, fun _ => rfl⟩
    | missingFields =>
      rw [step_notAccepted hgate hpf hcl (by decide)]
      exact ⟨fun h => by simp [outcomeResp, missingResp, tooManyResp] at h,
             fun h => by simp at h, fun h _ => by simp at h, fun _ => rfl⟩
    | invalidEmail =>
      rw [step_notAccepted hgate hpf hcl (by decide)]
      exact ⟨fun h => by simp [outcomeResp, badEmailResp, tooManyResp] at h,
             fun h => by simp at h, fun h _ => by simp at h, fun _ => rfl⟩
    | spamKeyword =>
      rw [step_notAccepted hgate hpf hcl (by decide)]
      exact ⟨fun h => by simp [outcomeResp, spamResp, tooManyResp] at h,
             fun h => by simp at h, fun h _ => by simp at h, fun _ => rfl⟩
    | invalidFileType =>
      rw [step_notAccepted hgate hpf hcl (by decide)]
      exact ⟨fun h => by simp [outcomeResp, badTypeResp, tooManyResp] at h,
             fun h => by simp at h, fun h _ => by simp at h, fun _ => rfl⟩
    | fileTooLarge =>
      rw [step_notAccepted hgate hpf hcl (by decide)]
      exact ⟨fun h => by simp [outcomeResp, tooLargeResp, tooManyResp] at h,
             fun h => by simp at h, fun h _ => by simp at h, fun _ => rfl⟩

/-- Witness for the amended C2: the accepted payload from a fresh identity
gets a record with count 1, and the gate is passed. -/
theorem claim2_amended_counter_on_accept_witness :
    ((resetRecord (plainReq 2 none okForm).now
        (fetchedRecord emptyStore
          (clientKey (plainReq 2 none okForm).clientAddress)
          (plainReq 2 none okForm).now)).count < 5) ∧
    ((step emptyStore (plainReq 2 none okForm)).resp ≠ tooManyResp ∧
     ((step emptyStore (plainReq 2 none okForm)).notified = true →
       (step emptyStore (plainReq 2 none okForm)).store
           (clientKey (plainReq 2 none okForm).clientAddress) =
         some ⟨(resetRecord (plainReq 2 none okForm).now
             (fetchedRecord emptyStore
               (clientKey (plainReq 2 none okForm).clientAddress)
               (plainReq 2 none okForm).now)).count + 1,
           (resetRecord (plainReq 2 none okForm).now
             (fetchedRecord emptyStore
               (clientKey (plainReq 2 none okForm).clientAddress)
               (plainReq 2 none okForm).now)).resetTime⟩) ∧
     ((step emptyStore (plainReq 2 none okForm)).notified = true →
       emptyStore (clientKey (plainReq 2 none okForm).clientAddress) = none →
       (step emptyStore (plainReq 2 none okForm)).store
           (clientKey (plainReq 2 none okForm).clientAddress) =
         some ⟨1, (plainReq 2 none okForm).now + 3600000⟩) ∧
     ((step emptyStore (plainReq 2 none okForm)).notified = false →
       (step emptyStore (plainReq 2 none okForm)).store =
         storeAfterReset emptyStore
           (clientKey (plainReq 2 none okForm).clientAddress)
           (plainReq 2 none okForm).now)) :=
  ⟨by decide,
   claim2_amended_counter_on_accept emptyStore (plainReq 2 none okForm)
     (by decide)⟩

/-- Claim C10: when the client address is absent or empty the literal key
"unknown" is used, so all identity-less clients share a single bucket: after
five accepted submissions from identity-less clients within one window, a
sixth identity-less request (any payload) in the same window is rejected
with HTTP 429. -/
theorem claim10_unknown_bucket
    (p1 p2 p3 p4 p5 p6 : FormData) (a1 a2 a3 a4 a5 a6 : Option String)
    (ha1 : a1 = none ∨ a1 = some "") (ha2 : a2 = none ∨ a2 = some "")
    (ha3 : a3 = none ∨ a3 = some "") (ha4 : a4 = none ∨ a4 = some "")
    (ha5 : a5 = none ∨ a5 = some "") (ha6 : a6 = none ∨ a6 = some "")
    (hc1 : classify p1 = .accepted) (hc2 : classify p2 = .accepted)
    (hc3 : classify p3 = .accepted) (hc4 : classify p4 = .accepted)
    (hc5 : classify p5 = .accepted)
    (t1 t2 t3 t4 t5 t6 : Nat)
    (h2 : t2 ≤ t1 + 3600000) (h3 : t3 ≤ t1 + 3600000) (h4 : t4 ≤ t1 + 3600000)
    (h5 : t5 ≤ t1 + 3600000) (h6 : t6 ≤ t1 + 3600000) :
    clientKey a1 = "unknown" ∧ clientKey a6 = "unknown" ∧
    statuses emptyStore
      [plainReq t1 a1 p1, plainReq t2 a2 p2, plainReq t3 a3 p3,
       plainReq t4 a4 p4, plainReq t5 a5 p5, plainReq t6 a6 p6] =
      [200, 200, 200, 200, 200, 429] := by
  have k1 : clientKey (plainReq t1 a1 p1).clientAddress = "unknown" := by
    rcases ha1 with rfl | rfl <;> rfl
  have k2 : clientKey (plainReq t2 a2 p2).clientAddress = "unknown" := by
    rcases ha2 with rfl | rfl <;> rfl
  have k3 : clientKey (plainReq t3 a3 p3).clientAddress = "unknown" := by
    rcases ha3 with rfl | rfl <;> rfl
  have k4 : clientKey (plainReq t4 a4 p4).clientAddress = "unknown" := by
    rcases ha4 with rfl | rfl <;> rfl
  have k5 : clientKey (plainReq t5 a5 p5).clientAddress = "unknown" := by
    rcases ha5 with rfl | rfl <;> rfl
  have k6 : clientKey (plainReq t6 a6 p6).clientAddress = "unknown" := by
    rcases ha6 with rfl | rfl <;> rfl
  have hk1 : emptyStore (clientKey (plainReq t1 a1 p1).clientAddress) = none := rfl
  obtain ⟨hr1, hs1⟩ := step_run_fresh (r := plainReq t1 a1 p1) hk1 rfl hc1
  obtain ⟨hr2, hs2⟩ := step_run_live (r := plainReq t2 a2 p2)
    ((k1.trans k2.symm) ▸ hs1) (by show ¬ t2 > t1 + 3600000; omega) (by omega) rfl hc2
  obtain ⟨hr3, hs3⟩ := step_run_live (r := plainReq t3 a3 p3)
    ((k2.trans k3.symm) ▸ hs2) (by show ¬ t3 > t1 + 3600000; omega) (by omega) rfl hc3
  obtain ⟨hr4, hs4⟩ := step_run_live (r := plainReq t4 a4 p4)
    ((k3.trans k4.symm) ▸ hs3) (by show ¬ t4 > t1 + 3600000; omega) (by omega) rfl hc4
  obtain ⟨hr5, hs5⟩ := step_run_live (r := plainReq t5 a5 p5)
    ((k4.trans k5.symm) ▸ hs4) (by show ¬ t5 > t1 + 3600000; omega) (by omega) rfl hc5
  obtain ⟨hr6, _⟩ := step_run_limited (r := plainReq t6 a6 p6)
    ((k5.trans k6.symm) ▸ hs5) (by show ¬ t6 > t1 + 3600000; omega) (by omega)
  refine ⟨k1, k6, ?_⟩
  simp only [statuses]
  rw [hr1, hr2, hr3, hr4, hr5, hr6]
  rfl

/-- Witness for C10: five accepted submissions with a `none` address and an
empty-string address mixed, then a sixth identity-less request is refused. -/
theorem claim10_unknown_bucket_witness :
    classify okForm = Outcome.accepted ∧
    (clientKey none = "unknown" ∧ clientKey (some "") = "unknown" ∧
     statuses emptyStore
       [plainReq 0 none okForm, plainReq 1 (some "") okForm,
        plainReq 2 none okForm, plainReq 3 (some "") okForm,
        plainReq 4 none okForm, plainReq 5 (some "") okForm] =
       [200, 200, 200, 200, 200, 429]) :=
  ⟨by decide,
   claim10_unknown_bucket okForm okForm okForm okForm okForm okForm
     none (some "") none (some "") none (some "")
     (Or.inl rfl) (Or.inr rfl) (Or.inl rfl) (Or.inr rfl) (Or.inl rfl) (Or.inr rfl)
     (by decide) (by decide) (by decide) (by decide) (by decide)
     0 1 2 3 4 5
     (by decide) (by decide) (by decide) (by decide) (by decide)⟩
